import Mathlib

/-
Verification of the session lifecycle engine of the milking-session tracker
(Sushant6095/Animall-assignment-).

Shallow embedding of the core: the TTL-backed session store with in-memory
fallback (src/utils/session-storage), the distributed per-user lock with
in-memory fallback (src/utils/session-lock), the persistence bridge
(src/utils/session-persistence), the tick scheduler / connection registry
(src/socket/session-timer), and the Socket.IO transition handlers
(src/socket/session-handlers).

Modelling conventions:
- JavaScript numbers (millisecond timestamps, second counts) are rationals.
- Every cache key embeds the userId (`active_session:{userId}`,
  `lock:milking:{userId}`), so the store state is modelled as the slice for
  one user: one optional session entry per backing store, one optional lock
  per backing store, each paired with its absolute expiry instant (ms).
- The redis client used by the fallback store swallows every error
  (get returns null, del returns 0, setNx returns false, setWithTTL is a
  silent no-op when the cache is down), so cache unavailability is one
  boolean `redisUp`; when it is false each primitive behaves exactly as the
  client's catch branch does.
- `Date.now()` is an explicit `now : ℚ` argument at each operation.
- Socket.IO side effects (emits) are returned as an explicit event list;
  emits always go to the originating connection except ticks, which fan out
  to the registered sockets.
-/

/-- Session status enum from src/utils/session-storage.ts (`SessionStatus`). -/
inductive SessionStatus where
  | active
  | paused
  | completed
deriving Repr, DecidableEq

/-- The `ActiveSession` record stored under `active_session:{userId}`
(src/utils/session-storage.ts). Timestamps are milliseconds, the time
accumulators are seconds. -/
structure ActiveSession where
  userId : String
  status : SessionStatus
  startTime : ℚ
  lastUpdateTime : ℚ
  elapsedTime : ℚ
  pausedAt : Option ℚ
  totalPausedTime : ℚ
deriving Repr, DecidableEq

/-- The durable `milkingSession` row written by the persistence bridge
(src/utils/session-persistence.ts), restricted to the fields it sets. -/
structure MilkingRecord where
  userId : String
  startTime : ℚ
  endTime : ℚ
  duration : ℤ
  elapsedTime : ℚ
  pausedTime : ℚ
deriving Repr, DecidableEq

/-- Whole per-user world state: both backing stores with expiry instants,
the lock in both backing stores, the per-user tick timer flag
(`activeTimers.has(userId)`), the per-user socket registry
(`userSockets.get(userId)`), and the durable store (reachability flag plus
the record for this user's `(userId, startTime)` key). -/
structure World where
  redisUp : Bool
  dbUp : Bool
  redisSession : Option (ActiveSession × ℚ)
  memSession : Option (ActiveSession × ℚ)
  redisLock : Option ℚ
  memLock : Option ℚ
  timerRunning : Bool
  sockets : List String
  dbRecord : Option MilkingRecord
deriving Repr, DecidableEq

/-- Events emitted to clients (src/types/socket-events.ts server-to-client
surface). `err` carries the `{message, code}` payload. -/
inductive SEvent where
  | started (userId : String) (startTime elapsedTime : ℚ)
  | paused (userId : String) (elapsedTime : ℚ)
  | resumed (userId : String) (elapsedTime : ℚ)
  | stopped (userId : String) (totalElapsedTime : ℚ)
  | tick (userId : String) (elapsedTime : ℚ) (status : SessionStatus)
  | syncResp (userId : String) (elapsedTime : ℚ) (status : SessionStatus) (startTime : ℚ)
  | stateSnap (userId : String) (elapsedTime : ℚ) (status : SessionStatus)
      (startTime lastUpdateTime : ℚ)
  | err (message code : String)
deriving Repr, DecidableEq

/-- `DEFAULT_SESSION_TTL_SECONDS` (src/utils/session-storage.ts). -/
def DEFAULT_SESSION_TTL_SECONDS : ℚ := 3600

/-- `DEFAULT_LOCK_TTL_SECONDS` (src/utils/session-lock.ts). -/
def DEFAULT_LOCK_TTL_SECONDS : ℚ := 300

/-- A redis key set at instant `set` with TTL `ttl` seconds is live at `now`
iff `now < set + ttl*1000`; we store the expiry instant directly. Reading the
session key through the redis client (`get`): null when the cache is down or
the key is absent/expired. -/
def redisGetSession (w : World) (now : ℚ) : Option ActiveSession :=
  if w.redisUp then
    match w.redisSession with
    | some (s, e) => if now < e then some s else none
    | none => none
  else none

/-- `getSession` (fallback store): try redis first when connected, then fall
back to the in-memory map, whose entries carry an `expiresAt` instant checked
on read (`Date.now() > expiresAt` means expired). The source also deletes an
expired in-memory entry on read; that cleanup only removes an entry every
later read already treats as absent, so the read is modelled as pure. -/
def getSession (w : World) (now : ℚ) : Option ActiveSession :=
  match redisGetSession w now with
  | some s => some s
  | none =>
    match w.memSession with
    | some (s, e) => if now > e then none else some s
    | none => none

/-- The store's write pattern: `setWithTTL` into redis when connected,
otherwise into the in-memory map with `expiresAt = now + ttl*1000`. -/
def writeSessionFallback (w : World) (now : ℚ) (s : ActiveSession) (ttlSeconds : ℚ) : World :=
  if w.redisUp then { w with redisSession := some (s, now + ttlSeconds * 1000) }
  else { w with memSession := some (s, now + ttlSeconds * 1000) }

/-- `createSession`: writes a fresh Active session with `elapsedTime = 0`,
`startTime = lastUpdateTime = now`, `totalPausedTime = 0`. -/
def createSession (w : World) (userId : String) (now ttlSeconds : ℚ) :
    ActiveSession × World :=
  let session : ActiveSession :=
    { userId := userId, status := .active, startTime := now, lastUpdateTime := now,
      elapsedTime := 0, pausedAt := none, totalPausedTime := 0 }
  (session, writeSessionFallback w now session ttlSeconds)

/-- `updateElapsedTime` (the reconcile/tick operation): absent stays absent;
a paused session is returned unchanged with no write; otherwise add
`(now - lastUpdateTime)/1000` seconds, set `lastUpdateTime = now`, and write
the record back with the TTL refreshed to the full default window. (The
source also reads the current TTL into `currentTTL`, but always overwrites
with `DEFAULT_SESSION_TTL_SECONDS`; the dead read is omitted.) -/
def updateElapsedTime (w : World) (now : ℚ) : Option ActiveSession × World :=
  match getSession w now with
  | none => (none, w)
  | some session =>
    if session.status = .paused then (some session, w)
    else
      let timeSinceLastUpdate := (now - session.lastUpdateTime) / 1000
      let session' := { session with
        elapsedTime := session.elapsedTime + timeSinceLastUpdate,
        lastUpdateTime := now }
      (some session', writeSessionFallback w now session' DEFAULT_SESSION_TTL_SECONDS)

/-- `pauseSession`: no-op returning the current record if already paused;
otherwise reconcile elapsed time, mark `paused`, set `pausedAt = now`, write
back with refreshed TTL. -/
def pauseSession (w : World) (now : ℚ) : Option ActiveSession × World :=
  match getSession w now with
  | none => (none, w)
  | some session =>
    if session.status = .paused then (some session, w)
    else
      let session' := { session with
        elapsedTime := session.elapsedTime + (now - session.lastUpdateTime) / 1000,
        lastUpdateTime := now,
        status := .paused,
        pausedAt := some now }
      (some session', writeSessionFallback w now session' DEFAULT_SESSION_TTL_SECONDS)

/-- `resumeSession`: no-op returning the current record if not paused;
otherwise add `(now - pausedAt)/1000` to `totalPausedTime`, mark `active`,
set `lastUpdateTime = now`, clear `pausedAt`, write back with refreshed TTL. -/
def resumeSession (w : World) (now : ℚ) : Option ActiveSession × World :=
  match getSession w now with
  | none => (none, w)
  | some session =>
    if session.status ≠ .paused then (some session, w)
    else
      let totalPaused :=
        match session.pausedAt with
        | some p => session.totalPausedTime + (now - p) / 1000
        | none => session.totalPausedTime
      let session' := { session with
        totalPausedTime := totalPaused,
        status := .active,
        lastUpdateTime := now,
        pausedAt := none }
      (some session', writeSessionFallback w now session' DEFAULT_SESSION_TTL_SECONDS)

/-- `deleteSession`: `del` against redis when connected (returns the number
of live keys removed), then also delete from the in-memory map; reports
whether either store held an entry. -/
def deleteSession (w : World) (now : ℚ) : Bool × World :=
  let redisDeleted := w.redisUp && (match w.redisSession with
    | some (_, e) => decide (now < e)
    | none => false)
  let w1 := if w.redisUp then { w with redisSession := none } else w
  let memDeleted := w1.memSession.isSome
  (redisDeleted || memDeleted, { w1 with memSession := none })

/-- `acquireSessionLock` (fallback lock): when the cache is connected, a
`SET NX EX` — false iff the lock key is still live; when the cache is down,
the in-memory lock map with the same only-if-absent-or-expired semantics
(`existingLock && existingLock > now` means held). -/
def acquireSessionLock (w : World) (now ttlSeconds : ℚ) : Bool × World :=
  if w.redisUp then
    match w.redisLock with
    | some e =>
      if now < e then (false, w)
      else (true, { w with redisLock := some (now + ttlSeconds * 1000) })
    | none => (true, { w with redisLock := some (now + ttlSeconds * 1000) })
  else
    match w.memLock with
    | some e =>
      if e > now then (false, w)
      else (true, { w with memLock := some (now + ttlSeconds * 1000) })
    | none => (true, { w with memLock := some (now + ttlSeconds * 1000) })

/-- `releaseSessionLock`: unconditional delete from redis (when connected)
and from the in-memory lock map; true iff either held an entry. -/
def releaseSessionLock (w : World) (now : ℚ) : Bool × World :=
  let redisReleased := w.redisUp && (match w.redisLock with
    | some e => decide (now < e)
    | none => false)
  let w1 := if w.redisUp then { w with redisLock := none } else w
  let memReleased := w1.memLock.isSome
  (redisReleased || memReleased, { w1 with memLock := none })

/-- `persistCompletedSession` (src/utils/session-persistence.ts): look up the
durable record by `(userId, startTime)`; if found return it with
`created = false`; otherwise insert `{startTime, endTime = now,
duration = round(elapsedTime), elapsedTime, pausedTime = totalPausedTime}`.
On a durable-store failure the source logs the error and RETHROWS it
(`throw error`), modelled as `Except.error`. -/
def persistCompletedSession (w : World) (now : ℚ) (session : ActiveSession) :
    Except Unit (MilkingRecord × Bool) × World :=
  if w.dbUp then
    match w.dbRecord with
    | some existing => (.ok (existing, false), w)
    | none =>
      let row : MilkingRecord :=
        { userId := session.userId, startTime := session.startTime, endTime := now,
          duration := round session.elapsedTime, elapsedTime := session.elapsedTime,
          pausedTime := session.totalPausedTime }
      (.ok (row, true), { w with dbRecord := some row })
  else (.error (), w)

/-- `startSessionTimer`: clears any prior timer for the user and installs the
recurring 1 Hz one; per user at most one timer exists, so the flag is set. -/
def startSessionTimer (w : World) : World := { w with timerRunning := true }

/-- `stopSessionTimer`: clears the per-user interval if present (no-op
otherwise). -/
def stopSessionTimer (w : World) : World := { w with timerRunning := false }

/-- `registerUserSocket`: add the socket id to the user's set (idempotent). -/
def registerUserSocket (w : World) (socketId : String) : World :=
  if socketId ∈ w.sockets then w else { w with sockets := w.sockets ++ [socketId] }

/-- `unregisterUserSocket`: remove the socket id; when the set becomes empty,
drop the registry entry and stop the user's timer. -/
def unregisterUserSocket (w : World) (socketId : String) : World :=
  let remaining := w.sockets.erase socketId
  if remaining.isEmpty then { w with sockets := [], timerRunning := false }
  else { w with sockets := remaining }

/-- The body of the recurring per-user timer (src/socket/session-timer.ts):
read the session; if absent stop the timer; if not Active do nothing; if
Active reconcile through `updateElapsedTime` and broadcast a tick to every
registered socket of the user. -/
def sessionTick (w : World) (now : ℚ) : List SEvent × World :=
  match getSession w now with
  | none => ([], stopSessionTimer w)
  | some session =>
    if session.status = .active then
      match updateElapsedTime w now with
      | (some updated, w') =>
        (w'.sockets.map (fun _ => SEvent.tick updated.userId updated.elapsedTime updated.status),
         w')
      | (none, w') => ([], w')
    else ([], w)

/-- One originating connection: its socket id and the user it is bound to
(`socket.data.userId`). -/
structure Conn where
  socketId : String
  boundUser : Option String
deriving Repr, DecidableEq

/-- Result of one transition handler: the events emitted to the originating
connection, the new world, and the connection's new binding. -/
structure HandlerResult where
  events : List SEvent
  world : World
  conn : Conn
deriving Repr, DecidableEq

/-- `handleSessionStart` (src/socket/session-handlers.ts): acquire the lock
(fail with SESSION_LOCK_FAILED if held); check for an existing live session
(release the lock and fail with SESSION_EXISTS); otherwise create a fresh
session, register the socket, bind the connection, start the timer and emit
SESSION_STARTED. There is no binding guard on Start. -/
def handleSessionStart (conn : Conn) (userId : String) (now : ℚ) (w : World) :
    HandlerResult :=
  let (lockAcquired, w1) := acquireSessionLock w now DEFAULT_LOCK_TTL_SECONDS
  if !lockAcquired then
    ⟨[.err "Session already active or lock could not be acquired" "SESSION_LOCK_FAILED"],
      w1, conn⟩
  else
    match getSession w1 now with
    | some _ =>
      let (_, w2) := releaseSessionLock w1 now
      ⟨[.err "Session already exists" "SESSION_EXISTS"], w2, conn⟩
    | none =>
      let (session, w2) := createSession w1 userId now DEFAULT_SESSION_TTL_SECONDS
      let w3 := registerUserSocket w2 conn.socketId
      let conn' := { conn with boundUser := some userId }
      let w4 := startSessionTimer w3
      ⟨[.started session.userId session.startTime session.elapsedTime], w4, conn'⟩

/-- `handleSessionPause`: binding guard, then `pauseSession`;
SESSION_NOT_FOUND when absent, else SESSION_PAUSED with the current
elapsed time. -/
def handleSessionPause (conn : Conn) (userId : String) (now : ℚ) (w : World) :
    HandlerResult :=
  if conn.boundUser ≠ some userId then
    ⟨[.err "Unauthorized" "UNAUTHORIZED"], w, conn⟩
  else
    match pauseSession w now with
    | (none, w1) => ⟨[.err "Session not found" "SESSION_NOT_FOUND"], w1, conn⟩
    | (some session, w1) => ⟨[.paused session.userId session.elapsedTime], w1, conn⟩

/-- `handleSessionResume`: binding guard, then `resumeSession`;
SESSION_NOT_FOUND when absent, else (re)start the timer and emit
SESSION_RESUMED. -/
def handleSessionResume (conn : Conn) (userId : String) (now : ℚ) (w : World) :
    HandlerResult :=
  if conn.boundUser ≠ some userId then
    ⟨[.err "Unauthorized" "UNAUTHORIZED"], w, conn⟩
  else
    match resumeSession w now with
    | (none, w1) => ⟨[.err "Session not found" "SESSION_NOT_FOUND"], w1, conn⟩
    | (some session, w1) =>
      let w2 := startSessionTimer w1
      ⟨[.resumed session.userId session.elapsedTime], w2, conn⟩

/-- `handleSessionStop`: binding guard; SESSION_NOT_FOUND when the live
record is absent (note: the lock is NOT released on this path); otherwise
compute the final elapsed time (reconciling once more if Active), mark the
record Completed and hand it to `persistCompletedSession`. That call is not
individually guarded and `persistCompletedSession` rethrows on failure, so a
persistence error reaches the handler's outer catch, which emits
SESSION_STOP_ERROR — the timer stop, record deletion, lock release, unbinding
and SESSION_STOPPED emit are all skipped on that path. -/
def handleSessionStop (conn : Conn) (userId : String) (now : ℚ) (w : World) :
    HandlerResult :=
  if conn.boundUser ≠ some userId then
    ⟨[.err "Unauthorized" "UNAUTHORIZED"], w, conn⟩
  else
    match getSession w now with
    | none => ⟨[.err "Session not found" "SESSION_NOT_FOUND"], w, conn⟩
    | some session =>
      let finalElapsedTime :=
        if session.status = .active then
          session.elapsedTime + (now - session.lastUpdateTime) / 1000
        else session.elapsedTime
      let finalSession := { session with
        elapsedTime := finalElapsedTime, status := .completed }
      match persistCompletedSession w now finalSession with
      | (.error _, w1) =>
        ⟨[.err "Failed to stop session" "SESSION_STOP_ERROR"], w1, conn⟩
      | (.ok _, w1) =>
        let w2 := stopSessionTimer w1
        let (_, w3) := deleteSession w2 now
        let (_, w4) := releaseSessionLock w3 now
        let w5 := unregisterUserSocket w4 conn.socketId
        let conn' := { conn with boundUser := none }
        ⟨[.stopped userId finalElapsedTime], w5, conn'⟩

/-- `handleSessionSync`: read-only recovery path. SESSION_NOT_FOUND when
absent; otherwise bind the connection if it is not already bound (no
UNAUTHORIZED guard), restart the timer if the session is Active, and emit the
SESSION_SYNC response plus a SESSION_STATE snapshot — both carrying the
STORED `elapsedTime` with no reconciliation. -/
def handleSessionSync (conn : Conn) (userId : String) (now : ℚ) (w : World) :
    HandlerResult :=
  match getSession w now with
  | none => ⟨[.err "Session not found" "SESSION_NOT_FOUND"], w, conn⟩
  | some session =>
    let bound := conn.boundUser = some userId
    let w1 := if bound then w else registerUserSocket w conn.socketId
    let conn' := if bound then conn else { conn with boundUser := some userId }
    let w2 := if session.status = .active then startSessionTimer w1 else w1
    ⟨[.syncResp session.userId session.elapsedTime session.status session.startTime,
      .stateSnap session.userId session.elapsedTime session.status session.startTime
        session.lastUpdateTime], w2, conn'⟩

/-- A world with nothing stored for the user yet. -/
def initWorld (redisUp dbUp : Bool) : World :=
  { redisUp := redisUp, dbUp := dbUp, redisSession := none, memSession := none,
    redisLock := none, memLock := none, timerRunning := false, sockets := [],
    dbRecord := none }

/-- Where the fallback store just wrote: the redis entry when the cache is
connected, the in-memory entry otherwise. -/
def storedEntry (w : World) : Option (ActiveSession × ℚ) :=
  if w.redisUp then w.redisSession else w.memSession

/-- Concrete world for the C1 failing input: a live Active session
(2 s accumulated, last reconciled at t=1000 ms), the lock held, the tick
timer running, one bound socket — and the durable store unreachable. -/
def c1World : World :=
  { redisUp := true, dbUp := false,
    redisSession := some (⟨"u1", .active, 0, 1000, 2, none, 0⟩, 3600000),
    memSession := none, redisLock := some 300000, memLock := none,
    timerRunning := true, sockets := ["s1"], dbRecord := none }

/-- Claim C1 (code bug): the claim — and the handler's own comment
"Continue with cleanup even if persistence fails" — says a durable-store
failure during Stop must not block cleanup and SESSION_STOPPED must still be
emitted. But `persistCompletedSession` rethrows its error and the call is
not individually guarded, so the handler's outer catch fires instead: at the
failing input the Stop emits SESSION_STOP_ERROR, the world is returned
unchanged — the tick timer is still running, the live session record and the
lock both survive — and no SESSION_STOPPED event is produced. -/
theorem c1_stop_persist_failure_skips_cleanup :
    handleSessionStop ⟨"s1", some "u1"⟩ "u1" 4000 c1World
      = ⟨[.err "Failed to stop session" "SESSION_STOP_ERROR"], c1World, ⟨"s1", some "u1"⟩⟩ ∧
    c1World.timerRunning = true ∧
    c1World.redisSession = some (⟨"u1", .active, 0, 1000, 2, none, 0⟩, 3600000) ∧
    c1World.redisLock = some 300000 := by
  refine ⟨?_, rfl, rfl, rfl⟩
  norm_num [handleSessionStop, getSession, redisGetSession, persistCompletedSession, c1World]

/-- Claim C2 (counterexample): a Start from a connection bound to no user is
not rejected with UNAUTHORIZED — it creates a session and emits
SESSION_STARTED, changing state (the live record appears). -/
theorem c2_counterexample_start_unguarded :
    (handleSessionStart ⟨"s1", none⟩ "u1" 0 (initWorld true true)).events
        = [.started "u1" 0 0] ∧
    (initWorld true true).redisSession = none ∧
    (handleSessionStart ⟨"s1", none⟩ "u1" 0 (initWorld true true)).world.redisSession
        = some (⟨"u1", .active, 0, 0, 0, none, 0⟩, 0 + DEFAULT_SESSION_TTL_SECONDS * 1000) := by
  refine ⟨?_, rfl, ?_⟩ <;>
    norm_num [handleSessionStart, acquireSessionLock, initWorld, getSession, redisGetSession,
      createSession, writeSessionFallback, registerUserSocket, startSessionTimer]

/-- Claim C2 (amended): only Pause, Resume and Stop are guarded by the
connection binding — each rejects with an UNAUTHORIZED error and leaves
world and binding untouched when the connection is not bound to the target
user. Start and Sync perform no such check: Sync (on a live session) binds
the connection to the requested user, and Start either binds the connection
(successful start) or fails for lock/existence reasons, never with
UNAUTHORIZED. -/
theorem c2_amended_auth_guard (conn : Conn) (userId : String) (now : ℚ) (w : World)
    (h : conn.boundUser ≠ some userId) :
    handleSessionPause conn userId now w
        = ⟨[.err "Unauthorized" "UNAUTHORIZED"], w, conn⟩ ∧
    handleSessionResume conn userId now w
        = ⟨[.err "Unauthorized" "UNAUTHORIZED"], w, conn⟩ ∧
    handleSessionStop conn userId now w
        = ⟨[.err "Unauthorized" "UNAUTHORIZED"], w, conn⟩ ∧
    (∀ s, getSession w now = some s →
      (handleSessionSync conn userId now w).conn.boundUser = some userId) ∧
    ((handleSessionStart conn userId now w).conn.boundUser = some userId ∨
      (handleSessionStart conn userId now w).events
        = [.err "Session already active or lock could not be acquired" "SESSION_LOCK_FAILED"] ∨
      (handleSessionStart conn userId now w).events
        = [.err "Session already exists" "SESSION_EXISTS"]) := by
  refine ⟨?_, ?_, ?_, ?_, ?_⟩
  · simp [handleSessionPause, h]
  · simp [handleSessionResume, h]
  · simp [handleSessionStop, h]
  · intro s hs
    simp [handleSessionSync, hs, h]
  · unfold handleSessionStart
    rcases hA : acquireSessionLock w now DEFAULT_LOCK_TTL_SECONDS with ⟨la, w1⟩
    rcases la with _ | _
    · simp
    · rcases hS : getSession w1 now with _ | s
      · left; simp [hS]
      · right; right; simp [hS]

/-- Closed instance of `c2_amended_auth_guard` at a concrete unbound
connection. -/
theorem c2_amended_auth_guard_witness :
    handleSessionPause ⟨"s1", none⟩ "u1" 0 (initWorld true true)
      = ⟨[.err "Unauthorized" "UNAUTHORIZED"], initWorld true true, ⟨"s1", none⟩⟩ :=
  (c2_amended_auth_guard ⟨"s1", none⟩ "u1" 0 (initWorld true true) (by decide)).1

/-- Abbreviation for the read-modify-write the store performs on an Active
record at reconciliation time: fold `(now - lastUpdateTime)/1000` seconds
into `elapsedTime` and advance `lastUpdateTime` to `now`. -/
def reconciled (s : ActiveSession) (now : ℚ) : ActiveSession :=
  { s with
    elapsedTime := s.elapsedTime + (now - s.lastUpdateTime) / 1000,
    lastUpdateTime := now }

/-- Claim C6: the reconcile operation `updateElapsedTime` returns absent for
absent, returns a Paused record unchanged without writing, and for an Active
record adds `(now - lastUpdateTime)/1000` seconds to `elapsedTime`, sets
`lastUpdateTime = now`, persists the record and refreshes its TTL to the full
default window (3600 s). -/
theorem c6_reconcile_contract (w : World) (now : ℚ) (s : ActiveSession) :
    (getSession w now = none → updateElapsedTime w now = (none, w)) ∧
    (getSession w now = some s → s.status = .paused →
      updateElapsedTime w now = (some s, w)) ∧
    (getSession w now = some s → s.status = .active →
      (updateElapsedTime w now).1 = some (reconciled s now) ∧
      storedEntry (updateElapsedTime w now).2
          = some (reconciled s now, now + DEFAULT_SESSION_TTL_SECONDS * 1000)) ∧
    DEFAULT_SESSION_TTL_SECONDS = 3600 := by
  refine ⟨?_, ?_, ?_, rfl⟩
  · intro h; simp [updateElapsedTime, h]
  · intro h hp; simp [updateElapsedTime, h, hp]
  · intro h ha
    constructor
    · simp [updateElapsedTime, reconciled, h, ha]
    · by_cases hr : w.redisUp <;>
        simp [updateElapsedTime, reconciled, h, ha, storedEntry, writeSessionFallback, hr]

/-- Concrete world for the C6 and C8 witnesses: an Active session with 2 s
accumulated, last reconciled at t=1000 ms. -/
def c6World : World :=
  { redisUp := true, dbUp := true,
    redisSession := some (⟨"u1", .active, 0, 1000, 2, none, 0⟩, 3600000),
    memSession := none, redisLock := some 300000, memLock := none,
    timerRunning := true, sockets := ["s1"], dbRecord := none }

/-- Closed instance of `c6_reconcile_contract` on the Active branch. -/
theorem c6_reconcile_contract_witness :
    (updateElapsedTime c6World 4000).1
        = some (reconciled ⟨"u1", .active, 0, 1000, 2, none, 0⟩ 4000) ∧
    storedEntry (updateElapsedTime c6World 4000).2
        = some (reconciled ⟨"u1", .active, 0, 1000, 2, none, 0⟩ 4000,
            4000 + DEFAULT_SESSION_TTL_SECONDS * 1000) := by
  obtain ⟨-, -, hact, -⟩ :=
    c6_reconcile_contract c6World 4000 ⟨"u1", .active, 0, 1000, 2, none, 0⟩
  exact hact (by norm_num [getSession, redisGetSession, c6World]) rfl

/-- Claim C8: pausing a session that is already Paused and resuming a session
that is not Paused are no-ops — the store returns the identical record with
no write (world unchanged), and the handler emits the success event carrying
the current state, not an error. -/
theorem c8_pause_resume_noop (w : World) (now : ℚ) (s : ActiveSession)
    (conn : Conn) (userId : String) :
    (getSession w now = some s → s.status = .paused →
      pauseSession w now = (some s, w) ∧
      (conn.boundUser = some userId →
        handleSessionPause conn userId now w
          = ⟨[.paused s.userId s.elapsedTime], w, conn⟩)) ∧
    (getSession w now = some s → s.status ≠ .paused →
      resumeSession w now = (some s, w) ∧
      (conn.boundUser = some userId →
        handleSessionResume conn userId now w
          = ⟨[.resumed s.userId s.elapsedTime], startSessionTimer w, conn⟩)) := by
  constructor
  · intro h hp
    have hps : pauseSession w now = (some s, w) := by simp [pauseSession, h, hp]
    exact ⟨hps, fun hb => by simp [handleSessionPause, hb, hps]⟩
  · intro h hp
    have hrs : resumeSession w now = (some s, w) := by simp [resumeSession, h, hp]
    exact ⟨hrs, fun hb => by simp [handleSessionResume, hb, hrs]⟩

/-- Closed instance of `c8_pause_resume_noop`: resuming the Active session of
`c6World` is a no-op re-emitting the current 2 s elapsed time. -/
theorem c8_pause_resume_noop_witness :
    resumeSession c6World 4000 = (some ⟨"u1", .active, 0, 1000, 2, none, 0⟩, c6World) ∧
    handleSessionResume ⟨"s1", some "u1"⟩ "u1" 4000 c6World
      = ⟨[.resumed "u1" 2], startSessionTimer c6World, ⟨"s1", some "u1"⟩⟩ := by
  obtain ⟨h1, h2⟩ :=
    (c8_pause_resume_noop c6World 4000 ⟨"u1", .active, 0, 1000, 2, none, 0⟩
        ⟨"s1", some "u1"⟩ "u1").2
      (by norm_num [getSession, redisGetSession, c6World]) (by decide)
  exact ⟨h1, h2 rfl⟩

/-- Claim C9: under a monotone clock (`lastUpdateTime ≤ now`), no store
operation decreases `elapsedTime`: creation starts it at 0, reconciliation
and pause only add the nonnegative active delta, resume leaves it unchanged,
and the final total computed by Stop is at least the stored value. -/
theorem c9_elapsed_monotone (w : World) (now ttl : ℚ) (userId : String)
    (s : ActiveSession) (conn : Conn) (u : String) (T : ℚ) :
    ((createSession w userId now ttl).1.elapsedTime = 0) ∧
    (getSession w now = some s → s.lastUpdateTime ≤ now →
      ∀ s', (updateElapsedTime w now).1 = some s' → s.elapsedTime ≤ s'.elapsedTime) ∧
    (getSession w now = some s → s.lastUpdateTime ≤ now →
      ∀ s', (pauseSession w now).1 = some s' → s.elapsedTime ≤ s'.elapsedTime) ∧
    (getSession w now = some s →
      ∀ s', (resumeSession w now).1 = some s' → s.elapsedTime ≤ s'.elapsedTime) ∧
    (conn.boundUser = some u → getSession w now = some s → s.lastUpdateTime ≤ now →
      (handleSessionStop conn u now w).events = [.stopped u T] →
      s.elapsedTime ≤ T) := by
  have hdelta : s.lastUpdateTime ≤ now → 0 ≤ (now - s.lastUpdateTime) / 1000 := by
    intro hle
    exact div_nonneg (by linarith) (by norm_num)
  refine ⟨rfl, ?_, ?_, ?_, ?_⟩
  · intro h hle s' hs'
    by_cases hp : s.status = .paused
    · simp [updateElapsedTime, h, hp] at hs'
      simp [← hs']
    · simp [updateElapsedTime, h, hp] at hs'
      rw [← hs']
      have := hdelta hle
      simp only []
      linarith
  · intro h hle s' hs'
    by_cases hp : s.status = .paused
    · simp [pauseSession, h, hp] at hs'
      simp [← hs']
    · simp [pauseSession, h, hp] at hs'
      rw [← hs']
      have := hdelta hle
      simp only []
      linarith
  · intro h s' hs'
    by_cases hp : s.status = .paused
    · simp [resumeSession, h, hp] at hs'
      rw [← hs']
    · simp [resumeSession, h, hp] at hs'
      simp [← hs']
  · intro hb h hle hev
    have hguard : ¬ (conn.boundUser ≠ some u) := by simp [hb]
    unfold handleSessionStop at hev
    rw [if_neg hguard, h] at hev
    simp only [] at hev
    split at hev
    · simp at hev
    · simp only [List.cons.injEq, SEvent.stopped.injEq, and_true, true_and,
        eq_self_iff_true] at hev
      have hT := hev
      by_cases hs : s.status = .active
      · rw [if_pos hs] at hT
        have := hdelta hle
        linarith
      · rw [if_neg hs] at hT
        linarith

/-- A failed acquire writes nothing. -/
lemma acquire_fail_world (w : World) (now ttl : ℚ)
    (h : (acquireSessionLock w now ttl).1 = false) :
    (acquireSessionLock w now ttl).2 = w := by
  unfold acquireSessionLock at h ⊢
  by_cases hr : w.redisUp
  · rcases hL : w.redisLock with _ | e
    · simp [hr, hL] at h
    · by_cases hlt : now < e
      · simp [hr, hL, hlt]
      · simp [hr, hL, hlt] at h
  · rcases hL : w.memLock with _ | e
    · simp [hr, hL] at h
    · by_cases hlt : e > now
      · simp [hr, hL, hlt]
      · simp [hr, hL, hlt] at h

/-- A successful acquire writes exactly the lock entry for the reachable
store, with expiry `now + ttl*1000`. -/
lemma acquire_ok_world (w : World) (now ttl : ℚ)
    (h : (acquireSessionLock w now ttl).1 = true) :
    (acquireSessionLock w now ttl).2
      = (if w.redisUp then { w with redisLock := some (now + ttl * 1000) }
         else { w with memLock := some (now + ttl * 1000) }) := by
  unfold acquireSessionLock at h ⊢
  by_cases hr : w.redisUp
  · rcases hL : w.redisLock with _ | e
    · simp [hr, hL]
    · by_cases hlt : now < e
      · simp [hr, hL, hlt] at h
      · simp [hr, hL, hlt]
  · rcases hL : w.memLock with _ | e
    · simp [hr, hL]
    · by_cases hlt : e > now
      · simp [hr, hL, hlt] at h
      · simp [hr, hL, hlt]

/-- Branch lemma: Start under a held lock fails with SESSION_LOCK_FAILED and
changes nothing. -/
lemma handleSessionStart_lockFailed (conn : Conn) (userId : String) (now : ℚ) (w : World)
    (hf : (acquireSessionLock w now DEFAULT_LOCK_TTL_SECONDS).1 = false) :
    handleSessionStart conn userId now w
      = ⟨[.err "Session already active or lock could not be acquired" "SESSION_LOCK_FAILED"],
          w, conn⟩ := by
  have hpair : acquireSessionLock w now DEFAULT_LOCK_TTL_SECONDS = (false, w) :=
    Prod.ext_iff.mpr ⟨hf, acquire_fail_world w now DEFAULT_LOCK_TTL_SECONDS hf⟩
  unfold handleSessionStart
  rw [hpair]
  simp

/-- Branch lemma: Start with the lock acquired but a live session releases
the lock and fails with SESSION_EXISTS. -/
lemma handleSessionStart_exists (conn : Conn) (userId : String) (now : ℚ) (w : World)
    (s : ActiveSession)
    (ht : (acquireSessionLock w now DEFAULT_LOCK_TTL_SECONDS).1 = true)
    (hs : getSession w now = some s) :
    handleSessionStart conn userId now w
      = ⟨[.err "Session already exists" "SESSION_EXISTS"],
          (releaseSessionLock (acquireSessionLock w now DEFAULT_LOCK_TTL_SECONDS).2 now).2,
          conn⟩ := by
  have hpair : acquireSessionLock w now DEFAULT_LOCK_TTL_SECONDS
      = (true, (acquireSessionLock w now DEFAULT_LOCK_TTL_SECONDS).2) :=
    Prod.ext_iff.mpr ⟨ht, rfl⟩
  have hget : getSession (acquireSessionLock w now DEFAULT_LOCK_TTL_SECONDS).2 now = some s := by
    rw [acquire_ok_world w now DEFAULT_LOCK_TTL_SECONDS ht]
    by_cases hr : w.redisUp
    · rw [if_pos hr]; exact hs
    · rw [if_neg hr]; exact hs
  conv_lhs => rw [handleSessionStart, hpair]
  simp only [Bool.not_true, Bool.false_eq_true, if_false]
  rw [hget]

/-- Branch lemma: Start with the lock acquired and no live session creates
the fresh session, registers the socket, binds the connection, starts the
timer and emits one SESSION_STARTED. -/
lemma handleSessionStart_fresh (conn : Conn) (userId : String) (now : ℚ) (w : World)
    (ht : (acquireSessionLock w now DEFAULT_LOCK_TTL_SECONDS).1 = true)
    (hs : getSession w now = none) :
    handleSessionStart conn userId now w
      = ⟨[.started userId now 0],
          startSessionTimer (registerUserSocket
            (createSession (acquireSessionLock w now DEFAULT_LOCK_TTL_SECONDS).2
              userId now DEFAULT_SESSION_TTL_SECONDS).2 conn.socketId),
          { conn with boundUser := some userId }⟩ := by
  have hpair : acquireSessionLock w now DEFAULT_LOCK_TTL_SECONDS
      = (true, (acquireSessionLock w now DEFAULT_LOCK_TTL_SECONDS).2) :=
    Prod.ext_iff.mpr ⟨ht, rfl⟩
  have hget : getSession (acquireSessionLock w now DEFAULT_LOCK_TTL_SECONDS).2 now = none := by
    rw [acquire_ok_world w now DEFAULT_LOCK_TTL_SECONDS ht]
    by_cases hr : w.redisUp
    · rw [if_pos hr]; exact hs
    · rw [if_neg hr]; exact hs
  conv_lhs => rw [handleSessionStart, hpair]
  simp only [Bool.not_true, Bool.false_eq_true, if_false]
  rw [hget]
  rfl


/-- Releasing the lock clears the lock entries (redis only when reachable)
and touches nothing else. -/
lemma releaseSessionLock_world (w : World) (now : ℚ) :
    (releaseSessionLock w now).2
      = { w with
          redisLock := if w.redisUp then none else w.redisLock,
          memLock := none } := by
  unfold releaseSessionLock
  by_cases hr : w.redisUp <;> simp [hr]

/-- Claim C4: Start fails with SESSION_LOCK_FAILED (changing nothing) when
the lock is held; with the lock acquired but a session live it releases the
lock and fails with SESSION_EXISTS, leaving the session stores untouched;
otherwise it creates a fresh Active session with elapsedTime 0 and emits
exactly one SESSION_STARTED. Hence a second Start for the same user without
an intervening Stop (within the session TTL window) fails with
SESSION_LOCK_FAILED or SESSION_EXISTS and exactly the one session created by
the first Start remains live. -/
theorem c4_start_contract (w : World) (conn : Conn) (userId : String)
    (now t0 t1 : ℚ) (s : ActiveSession) :
    ((acquireSessionLock w now DEFAULT_LOCK_TTL_SECONDS).1 = false →
      handleSessionStart conn userId now w
        = ⟨[.err "Session already active or lock could not be acquired" "SESSION_LOCK_FAILED"],
            w, conn⟩) ∧
    ((acquireSessionLock w now DEFAULT_LOCK_TTL_SECONDS).1 = true →
      getSession w now = some s →
      (handleSessionStart conn userId now w).events
          = [.err "Session already exists" "SESSION_EXISTS"] ∧
      (handleSessionStart conn userId now w).world.redisSession = w.redisSession ∧
      (handleSessionStart conn userId now w).world.memSession = w.memSession ∧
      (if w.redisUp then (handleSessionStart conn userId now w).world.redisLock = none
        else (handleSessionStart conn userId now w).world.memLock = none) ∧
      (handleSessionStart conn userId now w).conn = conn) ∧
    ((acquireSessionLock w now DEFAULT_LOCK_TTL_SECONDS).1 = true →
      getSession w now = none →
      (handleSessionStart conn userId now w).events = [.started userId now 0] ∧
      storedEntry (handleSessionStart conn userId now w).world
          = some (⟨userId, .active, now, now, 0, none, 0⟩,
              now + DEFAULT_SESSION_TTL_SECONDS * 1000) ∧
      (handleSessionStart conn userId now w).conn.boundUser = some userId ∧
      (handleSessionStart conn userId now w).world.timerRunning = true) ∧
    (t1 < t0 + DEFAULT_SESSION_TTL_SECONDS * 1000 →
      (handleSessionStart ⟨"cA", none⟩ userId t0 (initWorld true true)).events
          = [.started userId t0 0] ∧
      ((handleSessionStart ⟨"cB", none⟩ userId t1
            (handleSessionStart ⟨"cA", none⟩ userId t0 (initWorld true true)).world).events
          = [.err "Session already active or lock could not be acquired" "SESSION_LOCK_FAILED"] ∨
        (handleSessionStart ⟨"cB", none⟩ userId t1
            (handleSessionStart ⟨"cA", none⟩ userId t0 (initWorld true true)).world).events
          = [.err "Session already exists" "SESSION_EXISTS"]) ∧
      (handleSessionStart ⟨"cB", none⟩ userId t1
          (handleSessionStart ⟨"cA", none⟩ userId t0 (initWorld true true)).world).world.redisSession
        = some (⟨userId, .active, t0, t0, 0, none, 0⟩,
            t0 + DEFAULT_SESSION_TTL_SECONDS * 1000) ∧
      (handleSessionStart ⟨"cB", none⟩ userId t1
          (handleSessionStart ⟨"cA", none⟩ userId t0 (initWorld true true)).world).world.memSession
        = none) := by
  refine ⟨?_, ?_, ?_, ?_⟩
  · intro hf
    exact handleSessionStart_lockFailed conn userId now w hf
  · intro ht hs'
    rw [handleSessionStart_exists conn userId now w s ht hs']
    have hwA := acquire_ok_world w now DEFAULT_LOCK_TTL_SECONDS ht
    rw [releaseSessionLock_world, hwA]
    by_cases hr : w.redisUp
    · simp [hr]
    · simp [hr]
  · intro ht hs'
    rw [handleSessionStart_fresh conn userId now w ht hs']
    have hwA := acquire_ok_world w now DEFAULT_LOCK_TTL_SECONDS ht
    refine ⟨rfl, ?_, rfl, rfl⟩
    rw [hwA]
    by_cases hr : w.redisUp <;>
      by_cases hm : conn.socketId ∈ w.sockets <;>
        simp [hr, hm, storedEntry, createSession, writeSessionFallback,
          registerUserSocket, startSessionTimer]
  · intro hTld
    have ht0 : (acquireSessionLock (initWorld true true) t0 DEFAULT_LOCK_TTL_SECONDS).1
        = true := by
      simp [acquireSessionLock, initWorld]
    have hs0 : getSession (initWorld true true) t0 = none := by
      simp [getSession, redisGetSession, initWorld]
    have hwA := acquire_ok_world (initWorld true true) t0 DEFAULT_LOCK_TTL_SECONDS ht0
    rw [handleSessionStart_fresh ⟨"cA", none⟩ userId t0 (initWorld true true) ht0 hs0]
    have hW1 : startSessionTimer (registerUserSocket
        (createSession (acquireSessionLock (initWorld true true) t0 DEFAULT_LOCK_TTL_SECONDS).2
          userId t0 DEFAULT_SESSION_TTL_SECONDS).2 (Conn.mk "cA" none).socketId)
        = { redisUp := true, dbUp := true,
            redisSession := some (⟨userId, .active, t0, t0, 0, none, 0⟩,
              t0 + DEFAULT_SESSION_TTL_SECONDS * 1000),
            memSession := none, redisLock := some (t0 + DEFAULT_LOCK_TTL_SECONDS * 1000),
            memLock := none, timerRunning := true, sockets := ["cA"], dbRecord := none } := by
      rw [hwA]
      simp [createSession, writeSessionFallback, registerUserSocket, startSessionTimer,
        initWorld]
    simp only [hW1]
    set W1 : World :=
      { redisUp := true, dbUp := true,
        redisSession := some (⟨userId, .active, t0, t0, 0, none, 0⟩,
          t0 + DEFAULT_SESSION_TTL_SECONDS * 1000),
        memSession := none, redisLock := some (t0 + DEFAULT_LOCK_TTL_SECONDS * 1000),
        memLock := none, timerRunning := true, sockets := ["cA"], dbRecord := none }
      with hW1def
    refine ⟨by simp, ?_, ?_, ?_⟩
    · by_cases hlt : t1 < t0 + DEFAULT_LOCK_TTL_SECONDS * 1000
      · left
        have hf2 : (acquireSessionLock W1 t1 DEFAULT_LOCK_TTL_SECONDS).1 = false := by
          rw [hW1def]; simp [acquireSessionLock, hlt]
        rw [handleSessionStart_lockFailed ⟨"cB", none⟩ userId t1 W1 hf2]
      · right
        have ht2 : (acquireSessionLock W1 t1 DEFAULT_LOCK_TTL_SECONDS).1 = true := by
          rw [hW1def]; simp [acquireSessionLock, hlt]
        have hs2 : getSession W1 t1 = some ⟨userId, .active, t0, t0, 0, none, 0⟩ := by
          rw [hW1def]; simp [getSession, redisGetSession, hTld]
        rw [handleSessionStart_exists ⟨"cB", none⟩ userId t1 W1 _ ht2 hs2]
    · by_cases hlt : t1 < t0 + DEFAULT_LOCK_TTL_SECONDS * 1000
      · have hf2 : (acquireSessionLock W1 t1 DEFAULT_LOCK_TTL_SECONDS).1 = false := by
          rw [hW1def]; simp [acquireSessionLock, hlt]
        rw [handleSessionStart_lockFailed ⟨"cB", none⟩ userId t1 W1 hf2]
      · have ht2 : (acquireSessionLock W1 t1 DEFAULT_LOCK_TTL_SECONDS).1 = true := by
          rw [hW1def]; simp [acquireSessionLock, hlt]
        have hs2 : getSession W1 t1 = some ⟨userId, .active, t0, t0, 0, none, 0⟩ := by
          rw [hW1def]; simp [getSession, redisGetSession, hTld]
        rw [handleSessionStart_exists ⟨"cB", none⟩ userId t1 W1 _ ht2 hs2]
        have hwA2 := acquire_ok_world W1 t1 DEFAULT_LOCK_TTL_SECONDS ht2
        rw [releaseSessionLock_world, hwA2]
        simp
    · by_cases hlt : t1 < t0 + DEFAULT_LOCK_TTL_SECONDS * 1000
      · have hf2 : (acquireSessionLock W1 t1 DEFAULT_LOCK_TTL_SECONDS).1 = false := by
          rw [hW1def]; simp [acquireSessionLock, hlt]
        rw [handleSessionStart_lockFailed ⟨"cB", none⟩ userId t1 W1 hf2]
      · have ht2 : (acquireSessionLock W1 t1 DEFAULT_LOCK_TTL_SECONDS).1 = true := by
          rw [hW1def]; simp [acquireSessionLock, hlt]
        have hs2 : getSession W1 t1 = some ⟨userId, .active, t0, t0, 0, none, 0⟩ := by
          rw [hW1def]; simp [getSession, redisGetSession, hTld]
        rw [handleSessionStart_exists ⟨"cB", none⟩ userId t1 W1 _ ht2 hs2]
        have hwA2 := acquire_ok_world W1 t1 DEFAULT_LOCK_TTL_SECONDS ht2
        rw [releaseSessionLock_world, hwA2]
        simp

/-- Closed instance of `c4_start_contract`: the two-start scenario at
t0 = 0, t1 = 1000 — the second Start fails and one live session remains. -/
theorem c4_start_contract_witness :
    ((handleSessionStart ⟨"cB", none⟩ "u1" 1000
          (handleSessionStart ⟨"cA", none⟩ "u1" 0 (initWorld true true)).world).events
        = [.err "Session already active or lock could not be acquired" "SESSION_LOCK_FAILED"] ∨
      (handleSessionStart ⟨"cB", none⟩ "u1" 1000
          (handleSessionStart ⟨"cA", none⟩ "u1" 0 (initWorld true true)).world).events
        = [.err "Session already exists" "SESSION_EXISTS"]) ∧
    (handleSessionStart ⟨"cB", none⟩ "u1" 1000
        (handleSessionStart ⟨"cA", none⟩ "u1" 0 (initWorld true true)).world).world.redisSession
      = some (⟨"u1", .active, 0, 0, 0, none, 0⟩, 0 + DEFAULT_SESSION_TTL_SECONDS * 1000) := by
  obtain ⟨-, -, -, hd⟩ :=
    c4_start_contract (initWorld true true) ⟨"cA", none⟩ "u1" 0 0 1000
      ⟨"u1", .active, 0, 0, 0, none, 0⟩
  obtain ⟨-, h2, h3, -⟩ := hd (by norm_num [DEFAULT_SESSION_TTL_SECONDS])
  exact ⟨h2, h3⟩


/-- Enum constructor facts used to evaluate status conditionals. -/
lemma active_ne_paused : SessionStatus.active ≠ SessionStatus.paused := by decide

/-- Closed instance of `c9_elapsed_monotone` on the reconcile branch:
elapsedTime 2 grows to elapsedTime 5 at the next reconciliation. -/
theorem c9_elapsed_monotone_witness :
    (⟨"u1", .active, 0, 1000, 2, none, 0⟩ : ActiveSession).elapsedTime
      ≤ (reconciled ⟨"u1", .active, 0, 1000, 2, none, 0⟩ 4000).elapsedTime := by
  obtain ⟨-, hupd, -, -, -⟩ :=
    c9_elapsed_monotone c6World 4000 0 "u1" ⟨"u1", .active, 0, 1000, 2, none, 0⟩
      ⟨"s1", some "u1"⟩ "u1" 0
  exact hupd (by norm_num [getSession, redisGetSession, c6World]) (by norm_num)
    (reconciled ⟨"u1", .active, 0, 1000, 2, none, 0⟩ 4000)
    (by norm_num [updateElapsedTime, reconciled, getSession, redisGetSession, c6World,
      active_ne_paused, apply_ite])

/-- Claim C10: a Stop finding no live session emits SESSION_NOT_FOUND and
returns with the world — in particular the still-existing lock — untouched;
every Start while that lock is live then fails with SESSION_LOCK_FAILED, and
only once the lock has expired (its TTL is the 300-second default) does a
Start succeed again. -/
theorem c10_stop_missing_session_keeps_lock (w : World) (conn : Conn) (u : String)
    (now e t1 : ℚ) (hb : conn.boundUser = some u) (hup : w.redisUp = true)
    (hrs : w.redisSession = none) (hms : w.memSession = none)
    (hlk : w.redisLock = some e) :
    handleSessionStop conn u now w
        = ⟨[.err "Session not found" "SESSION_NOT_FOUND"], w, conn⟩ ∧
    (t1 < e →
      handleSessionStart conn u t1 w
        = ⟨[.err "Session already active or lock could not be acquired" "SESSION_LOCK_FAILED"],
            w, conn⟩) ∧
    (e ≤ t1 → (handleSessionStart conn u t1 w).events = [.started u t1 0]) ∧
    DEFAULT_LOCK_TTL_SECONDS = 300 := by
  have hget : ∀ t : ℚ, getSession w t = none := fun t => by
    simp [getSession, redisGetSession, hup, hrs, hms]
  refine ⟨?_, ?_, ?_, rfl⟩
  · have hguard : ¬ (conn.boundUser ≠ some u) := by simp [hb]
    unfold handleSessionStop
    rw [if_neg hguard, hget now]
  · intro hlt
    apply handleSessionStart_lockFailed
    simp [acquireSessionLock, hup, hlk, hlt]
  · intro hle
    have ht : (acquireSessionLock w t1 DEFAULT_LOCK_TTL_SECONDS).1 = true := by
      simp [acquireSessionLock, hup, hlk, not_lt.mpr hle]
    rw [handleSessionStart_fresh conn u t1 w ht (hget t1)]

/-- Concrete world for the C10 witness: no live session, but the lock (expiry
t = 300000 ms) still exists. -/
def c10World : World :=
  { redisUp := true, dbUp := true, redisSession := none, memSession := none,
    redisLock := some 300000, memLock := none, timerRunning := false,
    sockets := ["s1"], dbRecord := none }

/-- Closed instance of `c10_stop_missing_session_keeps_lock`. -/
theorem c10_stop_missing_session_keeps_lock_witness :
    handleSessionStop ⟨"s1", some "u1"⟩ "u1" 1000 c10World
        = ⟨[.err "Session not found" "SESSION_NOT_FOUND"], c10World, ⟨"s1", some "u1"⟩⟩ ∧
    handleSessionStart ⟨"s1", some "u1"⟩ "u1" 2000 c10World
        = ⟨[.err "Session already active or lock could not be acquired" "SESSION_LOCK_FAILED"],
            c10World, ⟨"s1", some "u1"⟩⟩ := by
  obtain ⟨h1, h2, -, -⟩ :=
    c10_stop_missing_session_keeps_lock c10World ⟨"s1", some "u1"⟩ "u1" 1000 300000 2000
      rfl rfl rfl rfl rfl
  exact ⟨h1, h2 (by norm_num)⟩

/-- Concrete world for the C3 counterexample: an Active session with 10 s
stored, last reconciled at t = 1000 ms, and no bound sockets (the last one
disconnected, stopping the timer). -/
def c3World : World :=
  { redisUp := true, dbUp := true,
    redisSession := some (⟨"u1", .active, 0, 1000, 10, none, 0⟩, 3600000),
    memSession := none, redisLock := some 300000, memLock := none,
    timerRunning := false, sockets := [], dbRecord := none }

/-- Claim C3 (counterexample): after the last socket "s1" unbinds (which
stops the timer, giving exactly `c3World`), a Sync at t = 6000 ms emits the
stale stored elapsedTime 10, not the accumulated active total
10 + (6000-1000)/1000 = 15 the claim requires. -/
theorem c3_counterexample_sync_emits_stale :
    unregisterUserSocket { c3World with sockets := ["s1"], timerRunning := true } "s1"
        = c3World ∧
    (handleSessionSync ⟨"s2", none⟩ "u1" 6000 c3World).events
        = [.syncResp "u1" 10 .active 0, .stateSnap "u1" 10 .active 0 1000] ∧
    (10 : ℚ) ≠ 10 + (6000 - 1000) / 1000 := by
  refine ⟨?_, ?_, by norm_num⟩
  · simp [unregisterUserSocket, c3World]
  · norm_num [handleSessionSync, getSession, redisGetSession, c3World,
      registerUserSocket, startSessionTimer]

/-- Claim C3 (amended): a Sync on an Active session re-emits the STORED
elapsedTime — the active wall-clock time since lastUpdateTime is absent from
the SESSION_SYNC/SESSION_STATE response — but no time is lost: Sync leaves
the record (hence lastUpdateTime) untouched and restarts the timer, so the
next reconciliation at any later instant T yields
elapsedTime + (T - lastUpdateTime)/1000, the full active total. -/
theorem c3_amended_sync_stale_then_recovered (w : World) (conn : Conn) (u : String)
    (now T : ℚ) (s : ActiveSession)
    (hg : getSession w now = some s) (ha : s.status = .active)
    (hg2 : getSession (handleSessionSync conn u now w).world T = some s) :
    (handleSessionSync conn u now w).events
        = [.syncResp s.userId s.elapsedTime .active s.startTime,
           .stateSnap s.userId s.elapsedTime .active s.startTime s.lastUpdateTime] ∧
    (handleSessionSync conn u now w).world.timerRunning = true ∧
    (updateElapsedTime (handleSessionSync conn u now w).world T).1
        = some (reconciled s T) ∧
    (reconciled s T).elapsedTime = s.elapsedTime + (T - s.lastUpdateTime) / 1000 := by
  have hnp : s.status ≠ .paused := by rw [ha]; exact active_ne_paused
  refine ⟨?_, ?_, ?_, by simp [reconciled]⟩
  · simp [handleSessionSync, hg, ha]
  · simp [handleSessionSync, hg, ha, startSessionTimer]
  · simp [updateElapsedTime, hg2, hnp, reconciled]

/-- Closed instance of `c3_amended_sync_stale_then_recovered` at `c3World`:
the reconciliation right after the stale Sync recovers the full
10 + (7000-1000)/1000 = 16 seconds. -/
theorem c3_amended_sync_stale_then_recovered_witness :
    (updateElapsedTime (handleSessionSync ⟨"s2", none⟩ "u1" 6000 c3World).world 7000).1
        = some (reconciled ⟨"u1", .active, 0, 1000, 10, none, 0⟩ 7000) ∧
    (reconciled ⟨"u1", .active, 0, 1000, 10, none, 0⟩ 7000).elapsedTime
        = 10 + (7000 - 1000) / 1000 := by
  obtain ⟨-, -, h3, h4⟩ :=
    c3_amended_sync_stale_then_recovered c3World ⟨"s2", none⟩ "u1" 6000 7000
      ⟨"u1", .active, 0, 1000, 10, none, 0⟩
      (by norm_num [getSession, redisGetSession, c3World]) rfl
      (by
        simp [handleSessionSync, getSession, redisGetSession, c3World,
          registerUserSocket, startSessionTimer]
        norm_num)
  exact ⟨h3, h4⟩

/-- C5 scenario stage 1: Start for "u1" at `t0` with the cache down
(`redisUp = false`) and the durable store up. -/
def c5R1 (t0 : ℚ) : HandlerResult :=
  handleSessionStart ⟨"s1", none⟩ "u1" t0 (initWorld false true)

/-- C5 scenario stage 2: Pause at `t1`. -/
def c5R2 (t0 t1 : ℚ) : HandlerResult :=
  handleSessionPause (c5R1 t0).conn "u1" t1 (c5R1 t0).world

/-- C5 scenario stage 3: Resume at `t2`. -/
def c5R3 (t0 t1 t2 : ℚ) : HandlerResult :=
  handleSessionResume (c5R2 t0 t1).conn "u1" t2 (c5R2 t0 t1).world

/-- C5 scenario stage 4: Stop at `t3`. -/
def c5R4 (t0 t1 t2 t3 : ℚ) : HandlerResult :=
  handleSessionStop (c5R3 t0 t1 t2).conn "u1" t3 (c5R3 t0 t1 t2).world

lemma c5_step1 (t0 : ℚ) :
    c5R1 t0
      = ⟨[.started "u1" t0 0],
          { redisUp := false, dbUp := true, redisSession := none,
            memSession := some (⟨"u1", .active, t0, t0, 0, none, 0⟩,
              t0 + DEFAULT_SESSION_TTL_SECONDS * 1000),
            redisLock := none, memLock := some (t0 + DEFAULT_LOCK_TTL_SECONDS * 1000),
            timerRunning := true, sockets := ["s1"], dbRecord := none },
          ⟨"s1", some "u1"⟩⟩ := by
  have ht : (acquireSessionLock (initWorld false true) t0 DEFAULT_LOCK_TTL_SECONDS).1
      = true := by
    simp [acquireSessionLock, initWorld]
  have hs : getSession (initWorld false true) t0 = none := by
    simp [getSession, redisGetSession, initWorld]
  unfold c5R1
  rw [handleSessionStart_fresh ⟨"s1", none⟩ "u1" t0 (initWorld false true) ht hs,
    acquire_ok_world (initWorld false true) t0 DEFAULT_LOCK_TTL_SECONDS ht]
  simp [createSession, writeSessionFallback, registerUserSocket, startSessionTimer,
    initWorld]

lemma c5_step2 (t0 t1 : ℚ) (hs1 : t1 ≤ t0 + DEFAULT_SESSION_TTL_SECONDS * 1000) :
    c5R2 t0 t1
      = ⟨[.paused "u1" ((t1 - t0) / 1000)],
          { redisUp := false, dbUp := true, redisSession := none,
            memSession := some (⟨"u1", .paused, t0, t1, (t1 - t0) / 1000, some t1, 0⟩,
              t1 + DEFAULT_SESSION_TTL_SECONDS * 1000),
            redisLock := none, memLock := some (t0 + DEFAULT_LOCK_TTL_SECONDS * 1000),
            timerRunning := true, sockets := ["s1"], dbRecord := none },
          ⟨"s1", some "u1"⟩⟩ := by
  unfold c5R2
  rw [c5_step1 t0]
  simp [handleSessionPause, pauseSession, getSession, redisGetSession,
    writeSessionFallback, not_lt.mpr hs1]

lemma c5_step3 (t0 t1 t2 : ℚ) (hs1 : t1 ≤ t0 + DEFAULT_SESSION_TTL_SECONDS * 1000)
    (hs2 : t2 ≤ t1 + DEFAULT_SESSION_TTL_SECONDS * 1000) :
    c5R3 t0 t1 t2
      = ⟨[.resumed "u1" ((t1 - t0) / 1000)],
          { redisUp := false, dbUp := true, redisSession := none,
            memSession := some (⟨"u1", .active, t0, t2, (t1 - t0) / 1000, none,
              (t2 - t1) / 1000⟩, t2 + DEFAULT_SESSION_TTL_SECONDS * 1000),
            redisLock := none, memLock := some (t0 + DEFAULT_LOCK_TTL_SECONDS * 1000),
            timerRunning := true, sockets := ["s1"], dbRecord := none },
          ⟨"s1", some "u1"⟩⟩ := by
  unfold c5R3
  rw [c5_step2 t0 t1 hs1]
  simp [handleSessionResume, resumeSession, getSession, redisGetSession,
    writeSessionFallback, startSessionTimer, not_lt.mpr hs2]

/-- Claim C5: with the cache unreachable throughout (every cache call failing
— `redisUp = false`) and the durable store up, the full
Start→Pause→Resume→Stop sequence succeeds entirely through the in-process
fallback maps — each handler emits its success event, none emits an error —
and the accounting is exact: the SESSION_STOPPED total equals the sum of the
two active interval lengths; the stop then clears the in-memory session and
in-memory lock. In particular lock acquisition succeeded via the in-memory
fallback at Start. -/
theorem c5_cache_down_pipeline (t0 t1 t2 t3 : ℚ)
    (hs1 : t1 ≤ t0 + DEFAULT_SESSION_TTL_SECONDS * 1000)
    (hs2 : t2 ≤ t1 + DEFAULT_SESSION_TTL_SECONDS * 1000)
    (hs3 : t3 ≤ t2 + DEFAULT_SESSION_TTL_SECONDS * 1000) :
    (c5R1 t0).events = [.started "u1" t0 0] ∧
    (c5R2 t0 t1).events = [.paused "u1" ((t1 - t0) / 1000)] ∧
    (c5R3 t0 t1 t2).events = [.resumed "u1" ((t1 - t0) / 1000)] ∧
    (c5R4 t0 t1 t2 t3).events
        = [.stopped "u1" ((t1 - t0) / 1000 + (t3 - t2) / 1000)] ∧
    (c5R4 t0 t1 t2 t3).world.memSession = none ∧
    (c5R4 t0 t1 t2 t3).world.memLock = none := by
  refine ⟨by rw [c5_step1], by rw [c5_step2 t0 t1 hs1], by rw [c5_step3 t0 t1 t2 hs1 hs2],
    ?_, ?_, ?_⟩ <;>
  · unfold c5R4
    rw [c5_step3 t0 t1 t2 hs1 hs2]
    simp [handleSessionStop, getSession, redisGetSession, persistCompletedSession,
      deleteSession, releaseSessionLock, stopSessionTimer, unregisterUserSocket,
      not_lt.mpr hs3]

/-- Closed instance of `c5_cache_down_pipeline` at t0=0, t1=5000, t2=8000,
t3=12000: the SESSION_STOPPED total is 5 + 4 = 9 seconds. -/
theorem c5_cache_down_pipeline_witness :
    (c5R4 0 5000 8000 12000).events = [.stopped "u1" ((5000 - 0) / 1000 + (12000 - 8000) / 1000)] ∧
    (c5R4 0 5000 8000 12000).world.memSession = none := by
  obtain ⟨-, -, -, h4, h5, -⟩ :=
    c5_cache_down_pipeline 0 5000 8000 12000
      (by norm_num [DEFAULT_SESSION_TTL_SECONDS])
      (by norm_num [DEFAULT_SESSION_TTL_SECONDS])
      (by norm_num [DEFAULT_SESSION_TTL_SECONDS])
  exact ⟨h4, h5⟩

/-- Enum fact used to evaluate the tick's status conditional. -/
lemma paused_ne_active : SessionStatus.paused ≠ SessionStatus.active := by decide

/-- Iterate the per-user 1 Hz timer body at the given instants. -/
def runTicks (ts : List ℚ) (w : World) : World :=
  ts.foldl (fun w t => (sessionTick w t).2) w

/-- Ticks on a Paused session change nothing: the timer body reads the
session and, seeing it not Active, neither reconciles nor writes. -/
lemma runTicks_paused (ts : List ℚ) (w : World) (s : ActiveSession) (e : ℚ)
    (hup : w.redisUp = true) (hrs : w.redisSession = some (s, e))
    (hst : s.status = .paused) (he : 3600000 ≤ e)
    (hts : ∀ t ∈ ts, 0 ≤ t ∧ t ≤ 12000) :
    runTicks ts w = w := by
  induction ts with
  | nil => rfl
  | cons t ts ih =>
    have hbound := hts t (by simp)
    have hlt : t < e := by linarith [hbound.2]
    have hget : getSession w t = some s := by
      simp [getSession, redisGetSession, hup, hrs, hlt]
    have htick : sessionTick w t = ([], w) := by
      simp [sessionTick, hget, hst, paused_ne_active]
    have hstep : runTicks (t :: ts) w = runTicks ts (sessionTick w t).2 := rfl
    rw [hstep, htick]
    exact ih (fun t' ht' => hts t' (by simp [ht']))

/-- Ticks on an Active session only rewrite the session entry: the status,
identity fields and pause accounting survive, the expiry stays at least the
full TTL window, and the reconciliation is telescoping — the quantity
`elapsedTime*1000 - lastUpdateTime` is invariant, so no active time is ever
lost or double-counted. -/
lemma runTicks_active (ts : List ℚ) (w : World) (s : ActiveSession) (e : ℚ)
    (hup : w.redisUp = true) (hrs : w.redisSession = some (s, e))
    (hst : s.status = .active) (he : 3600000 ≤ e)
    (hts : ∀ t ∈ ts, 0 ≤ t ∧ t ≤ 12000) :
    ∃ s' e', runTicks ts w = { w with redisSession := some (s', e') } ∧
      s'.userId = s.userId ∧ s'.status = .active ∧ s'.startTime = s.startTime ∧
      s'.pausedAt = s.pausedAt ∧ s'.totalPausedTime = s.totalPausedTime ∧
      3600000 ≤ e' ∧
      s'.elapsedTime * 1000 - s'.lastUpdateTime
        = s.elapsedTime * 1000 - s.lastUpdateTime := by
  induction ts generalizing w s e with
  | nil =>
    refine ⟨s, e, ?_, rfl, hst, rfl, rfl, rfl, he, rfl⟩
    conv_rhs => rw [← hrs]
    rfl
  | cons t ts ih =>
    have hbound := hts t (by simp)
    have hlt : t < e := by linarith [hbound.2]
    have hget : getSession w t = some s := by
      simp [getSession, redisGetSession, hup, hrs, hlt]
    have hnp : s.status ≠ .paused := by rw [hst]; exact active_ne_paused
    have htick : (sessionTick w t).2
        = { w with redisSession := some (reconciled s t,
              t + DEFAULT_SESSION_TTL_SECONDS * 1000) } := by
      simp [sessionTick, updateElapsedTime, hget, hst, hnp, writeSessionFallback,
        hup, reconciled]
    have hstep : runTicks (t :: ts) w = runTicks ts (sessionTick w t).2 := rfl
    rw [hstep, htick]
    obtain ⟨s', e', hw, h1, h2, h3, h4, h5, h6, h7⟩ :=
      ih { w with redisSession := some (reconciled s t,
            t + DEFAULT_SESSION_TTL_SECONDS * 1000) }
        (reconciled s t) (t + DEFAULT_SESSION_TTL_SECONDS * 1000) hup rfl
        (by simp [reconciled, hst])
        (by norm_num [DEFAULT_SESSION_TTL_SECONDS]; linarith [hbound.1])
        (fun t' ht' => hts t' (by simp [ht']))
    refine ⟨s', e', by rw [hw], ?_, h2, ?_, ?_, ?_, h6, ?_⟩
    · rw [h1]; simp [reconciled]
    · rw [h3]; simp [reconciled]
    · rw [h4]; simp [reconciled]
    · rw [h5]; simp [reconciled]
    · rw [h7]; simp only [reconciled]; ring

/-- Branch lemma: a Stop from the bound connection on a live Active session,
with the durable store up and no record yet for this (userId, startTime),
reconciles one final time, persists the completed record and emits
SESSION_STOPPED with the final total. -/
lemma handleSessionStop_ok (conn : Conn) (u : String) (now : ℚ) (w : World)
    (s : ActiveSession) (hb : conn.boundUser = some u)
    (hg : getSession w now = some s) (ha : s.status = .active)
    (hdb : w.dbUp = true) (hrec : w.dbRecord = none) :
    (handleSessionStop conn u now w).events
        = [.stopped u (s.elapsedTime + (now - s.lastUpdateTime) / 1000)] ∧
    (handleSessionStop conn u now w).world.dbRecord
        = some ⟨s.userId, s.startTime, now,
            round (s.elapsedTime + (now - s.lastUpdateTime) / 1000),
            s.elapsedTime + (now - s.lastUpdateTime) / 1000, s.totalPausedTime⟩ := by
  have hguard : ¬ (conn.boundUser ≠ some u) := by simp [hb]
  constructor <;>
  · unfold handleSessionStop
    rw [if_neg hguard, hg]
    by_cases hr : w.redisUp <;>
      by_cases hskt : (List.erase w.sockets conn.socketId).isEmpty = true <;>
        simp [ha, persistCompletedSession, hdb, hrec, stopSessionTimer, deleteSession,
          releaseSessionLock, unregisterUserSocket, hr, hskt]

/-- Abbreviation for the record `pauseSession` writes: reconcile, mark
Paused, stamp `pausedAt = now`. -/
def pausedRecord (s : ActiveSession) (now : ℚ) : ActiveSession :=
  { s with
    elapsedTime := s.elapsedTime + (now - s.lastUpdateTime) / 1000,
    lastUpdateTime := now,
    status := .paused,
    pausedAt := some now }

/-- Abbreviation for the record `resumeSession` writes: fold the pause
interval into `totalPausedTime`, mark Active, clear `pausedAt`, advance
`lastUpdateTime`. -/
def resumedRecord (s : ActiveSession) (now : ℚ) : ActiveSession :=
  { s with
    totalPausedTime :=
      match s.pausedAt with
      | some p => s.totalPausedTime + (now - p) / 1000
      | none => s.totalPausedTime,
    status := .active,
    lastUpdateTime := now,
    pausedAt := none }

/-- Branch lemma: a Pause from the bound connection on a live, not-yet-paused
session reconciles, writes the paused record and emits SESSION_PAUSED. -/
lemma handleSessionPause_ok (conn : Conn) (u : String) (now : ℚ) (w : World)
    (s : ActiveSession) (hb : conn.boundUser = some u)
    (hg : getSession w now = some s) (hnp : s.status ≠ .paused) :
    handleSessionPause conn u now w
      = ⟨[.paused s.userId (s.elapsedTime + (now - s.lastUpdateTime) / 1000)],
          writeSessionFallback w now (pausedRecord s now) DEFAULT_SESSION_TTL_SECONDS,
          conn⟩ := by
  have hguard : ¬ (conn.boundUser ≠ some u) := by simp [hb]
  unfold handleSessionPause
  rw [if_neg hguard]
  simp [pauseSession, hg, hnp, pausedRecord]

/-- Branch lemma: a Resume from the bound connection on a live Paused session
writes the resumed record, restarts the timer and emits SESSION_RESUMED with
the (unchanged) elapsed time. -/
lemma handleSessionResume_ok (conn : Conn) (u : String) (now : ℚ) (w : World)
    (s : ActiveSession) (hb : conn.boundUser = some u)
    (hg : getSession w now = some s) (hp : s.status = .paused) :
    handleSessionResume conn u now w
      = ⟨[.resumed s.userId s.elapsedTime],
          startSessionTimer
            (writeSessionFallback w now (resumedRecord s now) DEFAULT_SESSION_TTL_SECONDS),
          conn⟩ := by
  have hguard : ¬ (conn.boundUser ≠ some u) := by simp [hb]
  unfold handleSessionResume
  rw [if_neg hguard]
  simp [resumeSession, hg, hp, resumedRecord]

/-- C7 scenario: Start for "u1" at t=0 (cache and durable store healthy). -/
def c7Start : HandlerResult :=
  handleSessionStart ⟨"s1", none⟩ "u1" 0 (initWorld true true)

/-- C7 scenario: ticks during the first active window, then Pause at t=5000. -/
def c7W1 (ts1 : List ℚ) : World := runTicks ts1 c7Start.world

/-- C7 scenario stage: Pause at t = 5000 ms. -/
def c7R2 (ts1 : List ℚ) : HandlerResult :=
  handleSessionPause c7Start.conn "u1" 5000 (c7W1 ts1)

/-- C7 scenario: ticks while paused. -/
def c7W2 (ts1 ts2 : List ℚ) : World := runTicks ts2 (c7R2 ts1).world

/-- C7 scenario stage: Resume at t = 8000 ms. -/
def c7R3 (ts1 ts2 : List ℚ) : HandlerResult :=
  handleSessionResume (c7R2 ts1).conn "u1" 8000 (c7W2 ts1 ts2)

/-- C7 scenario: ticks during the second active window. -/
def c7W3 (ts1 ts2 ts3 : List ℚ) : World := runTicks ts3 (c7R3 ts1 ts2).world

/-- C7 scenario stage: Stop at t = 12000 ms. -/
def c7R4 (ts1 ts2 ts3 : List ℚ) : HandlerResult :=
  handleSessionStop (c7R3 ts1 ts2).conn "u1" 12000 (c7W3 ts1 ts2 ts3)

lemma c7_start_eq :
    c7Start = ⟨[.started "u1" 0 0],
      { redisUp := true, dbUp := true,
        redisSession := some (⟨"u1", .active, 0, 0, 0, none, 0⟩, 3600000),
        memSession := none, redisLock := some 300000, memLock := none,
        timerRunning := true, sockets := ["s1"], dbRecord := none },
      ⟨"s1", some "u1"⟩⟩ := by
  have ht : (acquireSessionLock (initWorld true true) 0 DEFAULT_LOCK_TTL_SECONDS).1
      = true := by
    simp [acquireSessionLock, initWorld]
  have hs : getSession (initWorld true true) 0 = none := by
    simp [getSession, redisGetSession, initWorld]
  unfold c7Start
  rw [handleSessionStart_fresh ⟨"s1", none⟩ "u1" 0 (initWorld true true) ht hs,
    acquire_ok_world (initWorld true true) 0 DEFAULT_LOCK_TTL_SECONDS ht]
  norm_num [createSession, writeSessionFallback, registerUserSocket, startSessionTimer,
    initWorld, DEFAULT_SESSION_TTL_SECONDS, DEFAULT_LOCK_TTL_SECONDS]

/-- Claim C7: for the event sequence Start at t=0, Pause at t=5000 ms, Resume
at t=8000 ms, Stop at t=12000 ms, with arbitrary tick volleys inside the
12-second horizon between the transitions, the SESSION_STOPPED event carries
totalElapsedTime exactly 9 seconds (5 active + 4 active) and the persisted
record carries pausedTime exactly 3 seconds — well within the claimed
one-tick tolerance, since tick reconciliation is telescoping. -/
theorem c7_pause_resume_stop_accounting (ts1 ts2 ts3 : List ℚ)
    (h1 : ∀ t ∈ ts1, 0 ≤ t ∧ t ≤ 12000)
    (h2 : ∀ t ∈ ts2, 0 ≤ t ∧ t ≤ 12000)
    (h3 : ∀ t ∈ ts3, 0 ≤ t ∧ t ≤ 12000) :
    (c7R2 ts1).events = [.paused "u1" 5] ∧
    (c7R3 ts1 ts2).events = [.resumed "u1" 5] ∧
    (c7R4 ts1 ts2 ts3).events = [.stopped "u1" 9] ∧
    (c7R4 ts1 ts2 ts3).world.dbRecord = some ⟨"u1", 0, 12000, 9, 9, 3⟩ := by
  obtain ⟨s1', e1', hw1, hu1, hst1, hsta1, hpa1, htp1, he1, hinv1⟩ :=
    runTicks_active ts1
      { redisUp := true, dbUp := true,
        redisSession := some (⟨"u1", .active, 0, 0, 0, none, 0⟩, 3600000),
        memSession := none, redisLock := some 300000, memLock := none,
        timerRunning := true, sockets := ["s1"], dbRecord := none }
      ⟨"u1", .active, 0, 0, 0, none, 0⟩ 3600000 rfl rfl rfl (by norm_num) h1
  obtain ⟨uf, stf, staf, laf, elf, paf, tpf⟩ := s1'
  dsimp only at hu1 hst1 hsta1 hpa1 htp1 hinv1
  subst hu1 hst1 hsta1 hpa1 htp1
  norm_num at hinv1
  have hwld : c7W1 ts1
      = { redisUp := true, dbUp := true,
          redisSession := some (⟨"u1", .active, 0, laf, elf, none, 0⟩, e1'),
          memSession := none, redisLock := some 300000, memLock := none,
          timerRunning := true, sockets := ["s1"], dbRecord := none } := by
    rw [c7W1, c7_start_eq]
    exact hw1
  have h5e : (5000 : ℚ) < e1' := by linarith
  have hg5 : getSession (c7W1 ts1) 5000 = some ⟨"u1", .active, 0, laf, elf, none, 0⟩ := by
    rw [hwld]
    simp [getSession, redisGetSession, h5e]
  have hc1 : c7Start.conn = (⟨"s1", some "u1"⟩ : Conn) := by rw [c7_start_eq]
  have hR2 : c7R2 ts1
      = ⟨[.paused "u1" (elf + (5000 - laf) / 1000)],
          writeSessionFallback (c7W1 ts1) 5000
            (pausedRecord ⟨"u1", .active, 0, laf, elf, none, 0⟩ 5000)
            DEFAULT_SESSION_TTL_SECONDS,
          ⟨"s1", some "u1"⟩⟩ := by
    rw [c7R2, hc1]
    exact handleSessionPause_ok _ "u1" 5000 _ _ rfl hg5
      (by dsimp only; exact active_ne_paused)
  have hE5 : elf + (5000 - laf) / 1000 = 5 := by
    field_simp
    linarith
  have hsp : pausedRecord ⟨"u1", .active, 0, laf, elf, none, 0⟩ 5000
      = (⟨"u1", .paused, 0, 5000, 5, some 5000, 0⟩ : ActiveSession) := by
    simp [pausedRecord, hE5]
  have hW2 : (c7R2 ts1).world
      = { redisUp := true, dbUp := true,
          redisSession := some (⟨"u1", .paused, 0, 5000, 5, some 5000, 0⟩, 3605000),
          memSession := none, redisLock := some 300000, memLock := none,
          timerRunning := true, sockets := ["s1"], dbRecord := none } := by
    rw [hR2]
    dsimp only
    rw [hwld, hsp]
    norm_num [writeSessionFallback, DEFAULT_SESSION_TTL_SECONDS]
  have hW2t : c7W2 ts1 ts2
      = { redisUp := true, dbUp := true,
          redisSession := some (⟨"u1", .paused, 0, 5000, 5, some 5000, 0⟩, 3605000),
          memSession := none, redisLock := some 300000, memLock := none,
          timerRunning := true, sockets := ["s1"], dbRecord := none } := by
    rw [c7W2, hW2]
    exact runTicks_paused ts2 _ ⟨"u1", .paused, 0, 5000, 5, some 5000, 0⟩ 3605000
      rfl rfl rfl (by norm_num) h2
  have hg8 : getSession (c7W2 ts1 ts2) 8000
      = some ⟨"u1", .paused, 0, 5000, 5, some 5000, 0⟩ := by
    rw [hW2t]
    norm_num [getSession, redisGetSession]
  have hc2 : (c7R2 ts1).conn = (⟨"s1", some "u1"⟩ : Conn) := by rw [hR2]
  have hR3 : c7R3 ts1 ts2
      = ⟨[.resumed "u1" 5],
          startSessionTimer (writeSessionFallback (c7W2 ts1 ts2) 8000
            (resumedRecord ⟨"u1", .paused, 0, 5000, 5, some 5000, 0⟩ 8000)
            DEFAULT_SESSION_TTL_SECONDS),
          ⟨"s1", some "u1"⟩⟩ := by
    rw [c7R3, hc2]
    exact handleSessionResume_ok _ "u1" 8000 _ _ rfl hg8 rfl
  have hsr : resumedRecord ⟨"u1", .paused, 0, 5000, 5, some 5000, 0⟩ 8000
      = (⟨"u1", .active, 0, 8000, 5, none, 3⟩ : ActiveSession) := by
    norm_num [resumedRecord]
  have hW3 : (c7R3 ts1 ts2).world
      = { redisUp := true, dbUp := true,
          redisSession := some (⟨"u1", .active, 0, 8000, 5, none, 3⟩, 3608000),
          memSession := none, redisLock := some 300000, memLock := none,
          timerRunning := true, sockets := ["s1"], dbRecord := none } := by
    rw [hR3]
    dsimp only
    rw [hW2t, hsr]
    norm_num [startSessionTimer, writeSessionFallback, DEFAULT_SESSION_TTL_SECONDS]
  obtain ⟨s3', e3', hw3, hu3, hst3, hsta3, hpa3, htp3, he3, hinv3⟩ :=
    runTicks_active ts3
      { redisUp := true, dbUp := true,
        redisSession := some (⟨"u1", .active, 0, 8000, 5, none, 3⟩, 3608000),
        memSession := none, redisLock := some 300000, memLock := none,
        timerRunning := true, sockets := ["s1"], dbRecord := none }
      ⟨"u1", .active, 0, 8000, 5, none, 3⟩ 3608000 rfl rfl rfl (by norm_num) h3
  obtain ⟨ug, stg, stag, lag, elg, pag, tpg⟩ := s3'
  dsimp only at hu3 hst3 hsta3 hpa3 htp3 hinv3
  subst hu3 hst3 hsta3 hpa3 htp3
  norm_num at hinv3
  have hW3t : c7W3 ts1 ts2 ts3
      = { redisUp := true, dbUp := true,
          redisSession := some (⟨"u1", .active, 0, lag, elg, none, 3⟩, e3'),
          memSession := none, redisLock := some 300000, memLock := none,
          timerRunning := true, sockets := ["s1"], dbRecord := none } := by
    rw [c7W3, hW3]
    exact hw3
  have h12e : (12000 : ℚ) < e3' := by linarith
  have hg12 : getSession (c7W3 ts1 ts2 ts3) 12000
      = some ⟨"u1", .active, 0, lag, elg, none, 3⟩ := by
    rw [hW3t]
    simp [getSession, redisGetSession, h12e]
  have hc3 : (c7R3 ts1 ts2).conn = (⟨"s1", some "u1"⟩ : Conn) := by rw [hR3]
  obtain ⟨hevs, hdbr⟩ :=
    handleSessionStop_ok ⟨"s1", some "u1"⟩ "u1" 12000 (c7W3 ts1 ts2 ts3)
      ⟨"u1", .active, 0, lag, elg, none, 3⟩ rfl hg12 rfl
      (by rw [hW3t]) (by rw [hW3t])
  have hE12 : elg + (12000 - lag) / 1000 = 9 := by
    field_simp
    linarith
  refine ⟨?_, ?_, ?_, ?_⟩
  · rw [hR2]
    simp [hE5]
  · rw [hR3]
  · rw [c7R4, hc3, hevs]
    dsimp only
    rw [hE12]
  · rw [c7R4, hc3, hdbr]
    dsimp only
    rw [hE12]
    norm_num

/-- Closed instance of `c7_pause_resume_stop_accounting` with concrete tick
volleys at 1 s cadence. -/
theorem c7_pause_resume_stop_accounting_witness :
    (c7R4 [1000, 2000] [6000] [9000, 10000]).events = [.stopped "u1" 9] ∧
    (c7R4 [1000, 2000] [6000] [9000, 10000]).world.dbRecord
      = some ⟨"u1", 0, 12000, 9, 9, 3⟩ := by
  obtain ⟨-, -, h3, h4⟩ :=
    c7_pause_resume_stop_accounting [1000, 2000] [6000] [9000, 10000]
      (by intro t ht; fin_cases ht <;> norm_num)
      (by intro t ht; fin_cases ht; norm_num)
      (by intro t ht; fin_cases ht <;> norm_num)
  exact ⟨h3, h4⟩
